import Mathlib

/-!
Verification of the CLIve backend command-routing and streaming orchestration
core against its natural-language specification.

The Python source is embedded shallowly:

* Python strings are `List Char`; `str.lower` is `Char.toLower` mapped over the
  list (both lowercase exactly the ASCII range for the inputs of interest);
  `str.strip` drops leading/trailing whitespace; the `in` substring test is
  list-infix (`<:+:`).
* Wall-clock time is an explicit `now : Nat` parameter counted in seconds.
* Fallible code returns `Option` / `Except`; external collaborators (DynamoDB,
  the Bedrock/KB/agent backends) are abstract environments whose outcomes are
  supplied as parameters.

Source files embedded: `backend/services/integration_service.py`,
`backend/services/session_service.py`, `backend/services/agent_service.py`,
`backend/models/{enums,session,message,agent_response}.py`,
`backend/middleware/integration_error_handling.py`.
-/

namespace CLIve

/-- Characters of a string literal, the representation of Python `str`. -/
def cs (s : String) : List Char := s.data

/-- Python whitespace for `str.strip` (ASCII part: space, tab, LF, CR, VT, FF). -/
def pyIsSpace (c : Char) : Bool :=
  c = ' ' || c = '\t' || c = '\n' || c = '\x0d' || c = '\x0b' || c = '\x0c'

/-- Python `str.lower` (the sources only ever lowercase ASCII text). -/
def pyLower (l : List Char) : List Char := l.map Char.toLower

/-- Python `str.strip()`: drop leading and trailing whitespace. -/
def pyStrip (l : List Char) : List Char :=
  (((l.dropWhile pyIsSpace).reverse).dropWhile pyIsSpace).reverse

/-- Python `needle in haystack` on strings: substring containment. -/
def pyIn (needle haystack : List Char) : Bool := decide (needle <:+: haystack)

/-- A nonempty pattern with no whitespace that occurs in `l` still occurs after
`dropWhile pyIsSpace`. -/
theorem infix_dropWhile_of_no_space {p l : List Char} (hne : p ≠ [])
    (hws : ∀ c ∈ p, pyIsSpace c = false) (h : p <:+: l) :
    p <:+: l.dropWhile pyIsSpace := by
  induction l with
  | nil =>
      rcases h with ⟨s, t, hst⟩
      have hp : p = [] :=
        (List.append_eq_nil.mp (List.append_eq_nil.mp hst).1).2
      exact absurd hp hne
  | cons a l ih =>
      by_cases ha : pyIsSpace a
      · have htail : p <:+: l := by
          rcases List.infix_cons_iff.mp h with hpre | htl
          · rcases hpre with ⟨t, ht⟩
            cases p with
            | nil => exact absurd rfl hne
            | cons c p' =>
                have hc : c = a := by
                  have := congrArg (·.head?) ht
                  simpa using this
                have : pyIsSpace a = false := hc ▸ hws c (by simp)
                rw [this] at ha
                exact absurd ha (by simp)
          · exact htl
        have := ih htail
        simpa [List.dropWhile, ha] using this
      · simpa [List.dropWhile, ha] using h

/-- `pyStrip` only discards characters: its result is an infix of the input. -/
theorem pyStrip_within (l : List Char) : pyStrip l <:+: l := by
  have h1 : l.dropWhile pyIsSpace <:+ l := List.dropWhile_suffix pyIsSpace
  have h2 : ((l.dropWhile pyIsSpace).reverse).dropWhile pyIsSpace <:+
      (l.dropWhile pyIsSpace).reverse := List.dropWhile_suffix pyIsSpace
  have h3 : pyStrip l <+: l.dropWhile pyIsSpace := by
    have h4 : (((l.dropWhile pyIsSpace).reverse).dropWhile pyIsSpace).reverse <+:
        ((l.dropWhile pyIsSpace).reverse).reverse := List.reverse_prefix.mpr h2
    simpa [pyStrip] using h4
  exact h3.isInfix.trans h1.isInfix

/-- A nonempty whitespace-free pattern occurs in `l` iff it occurs in
`pyStrip l`: stripping cannot create or destroy such an occurrence. -/
theorem infix_pyStrip_iff {p l : List Char} (hne : p ≠ [])
    (hws : ∀ c ∈ p, pyIsSpace c = false) :
    p <:+: pyStrip l ↔ p <:+: l := by
  constructor
  · exact fun h => h.trans (pyStrip_within l)
  · intro h
    have h1 : p <:+: l.dropWhile pyIsSpace :=
      infix_dropWhile_of_no_space hne hws h
    have hner : p.reverse ≠ [] := by
      intro hc; exact hne (by simpa using congrArg List.reverse hc)
    have hwsr : ∀ c ∈ p.reverse, pyIsSpace c = false := by
      intro c hc; exact hws c (List.mem_reverse.mp hc)
    have h2 : p.reverse <:+: (l.dropWhile pyIsSpace).reverse :=
      List.reverse_infix.mpr h1
    have h3 : p.reverse <:+: ((l.dropWhile pyIsSpace).reverse).dropWhile pyIsSpace :=
      infix_dropWhile_of_no_space hner hwsr h2
    have h4 : p <:+: pyStrip l := by
      unfold pyStrip
      exact List.reverse_infix.mp (by simpa using h3)
    exact h4

/-! ## Command classifier — `IntegrationService._classify_command`

`integration_service.py` initializes `self.agent_commands` and
`self.knowledge_base_indicators` in `__init__` (lines 42-51); containment
tests run over the lowercased, stripped message.  `agent_commands` is a
Python `set`, so code that iterates it (command extraction) sees an
interpreter-dependent order; code that only asks "does any element match"
(classification) is order-independent.  `agentCommandsList` records the
elements in the order the source writes the set literal. -/

/-- Elements of `self.agent_commands`, in source-literal order. -/
def agentCommandsList : List (List Char) :=
  [cs "time", cs "current_time", cs "get_time",
   cs "date", cs "current_date", cs "get_date",
   cs "weather", cs "current_weather", cs "get_weather",
   cs "all", cs "all_info", cs "everything"]

/-- Elements of `self.knowledge_base_indicators`, in source-literal order. -/
def knowledgeBaseIndicators : List (List Char) :=
  [cs "kb:", cs "knowledge:", cs "search:", cs "find:", cs "lookup:"]

/-- Routing outcome of `_classify_command` ("agent" / "knowledge_base" /
"general_ai"). -/
inductive CommandType
  | agent
  | knowledgeBase
  | generalAi
deriving DecidableEq, Repr

/-- `IntegrationService._classify_command` (integration_service.py 136-149):
lowercase and strip the message, return `agent` if any agent command is a
substring, else `knowledge_base` if any indicator is a substring, else
`general_ai`. -/
def classifyCommand (user_message : List Char) : CommandType :=
  let message_lower := pyStrip (pyLower user_message)
  if agentCommandsList.any (fun cmd => pyIn cmd message_lower) then
    .agent
  else if knowledgeBaseIndicators.any (fun ind => pyIn ind message_lower) then
    .knowledgeBase
  else
    .generalAi

/-- Agent-command extraction inside `_handle_agent_command`
(integration_service.py 161-168): default `"all"`, then take the first
element of the set iteration — modelled by the explicit `order` list — that
is a substring of the lowercased stripped message. -/
def extractAgentCommand (order : List (List Char)) (user_message : List Char) :
    List Char :=
  let message_lower := pyStrip (pyLower user_message)
  match order.find? (fun cmd => pyIn cmd message_lower) with
  | some cmd => cmd
  | none => cs "all"

/-! ## Enums — `backend/models/enums.py` -/

/-- `MessageType` (enums.py 8-13). -/
inductive MessageType
  | user
  | assistant
  | agent
  | system
deriving DecidableEq, Repr

/-- `SessionStatus` (enums.py 16-21). -/
inductive SessionStatus
  | active
  | inactive
  | expired
  | archived
deriving DecidableEq, Repr

/-- `AgentResponseType` (enums.py 24-30). -/
inductive AgentResponseType
  | time
  | date
  | weather
  | combined
  | error
deriving DecidableEq, Repr

/-- The `.value` string of each `AgentResponseType` member as declared in
enums.py: all lowercase. -/
def AgentResponseType.value : AgentResponseType → List Char
  | .time => cs "time"
  | .date => cs "date"
  | .weather => cs "weather"
  | .combined => cs "combined"
  | .error => cs "error"

/-! ## AgentResponse — `backend/models/agent_response.py`

`AgentResponse.data` is a Python dict whose values are either strings or (for
combined responses) nested string-valued dicts; dicts preserve insertion
order, so they are embedded as ordered association lists. -/

/-- A value stored in `AgentResponse.data`. -/
inductive DataValue
  | str (v : List Char)
  | dict (entries : List (List Char × List Char))
deriving DecidableEq, Repr

/-- Ordered dict backing `AgentResponse.data`. -/
abbrev AgentData := List (List Char × DataValue)

/-- Python `data[key]` / `data.get(key)`: first entry with the key. -/
def dataGet (data : AgentData) (key : List Char) : Option DataValue :=
  match data.find? (fun kv => decide (kv.1 = key)) with
  | some kv => some kv.2
  | none => none

/-- Python truthiness of `data.get(key)`: present and nonempty. -/
def truthy : Option DataValue → Bool
  | none => false
  | some (.str v) => !v.isEmpty
  | some (.dict m) => !m.isEmpty

/-- The single-quote character, as Python `repr` prints around strings. -/
def sq : List Char := [Char.ofNat 39]

/-- An opening brace character (Python dict repr). -/
def obr : List Char := [Char.ofNat 123]

/-- A closing brace character (Python dict repr). -/
def cbr : List Char := [Char.ofNat 125]

/-- Python `repr` of one value inside a dict (quoted string or nested dict);
the strings in play contain no quotes or escapes. -/
def pyReprOfValue : DataValue → List Char
  | .str v => sq ++ v ++ sq
  | .dict entries =>
      obr ++
        (List.intercalate (cs ", ")
          (entries.map (fun kv => sq ++ kv.1 ++ sq ++ cs ": " ++ sq ++ kv.2 ++ sq)))
      ++ cbr

/-- Python `str(data)` for a dict: `str` falls back to `repr`, printing
entries in insertion order. -/
def pyStrOfData (data : AgentData) : List Char :=
  obr ++
    (List.intercalate (cs ", ")
      (data.map (fun kv => sq ++ kv.1 ++ sq ++ cs ": " ++ pyReprOfValue kv.2)))
  ++ cbr

/-- `AgentResponse` (agent_response.py 12-21); the timestamp field is
wall-clock only and never read by the orchestrator, so it is omitted. -/
structure AgentResponse where
  agent_id : List Char
  response_type : AgentResponseType
  data : AgentData
  location : List Char := cs "Birmingham, Alabama"
deriving DecidableEq, Repr

/-- `AgentResponse.is_successful` (agent_response.py 106-108). -/
def AgentResponse.isSuccessful (r : AgentResponse) : Bool :=
  decide (r.response_type ≠ .error)

/-- `AgentResponse.create_time_response` (agent_response.py 135-142). -/
def createTimeResponse (agent_id time_str timezone : List Char) : AgentResponse :=
  { agent_id := agent_id, response_type := .time,
    data := [(cs "time", .str time_str), (cs "timezone", .str timezone)] }

/-- `AgentResponse.create_date_response` (agent_response.py 144-151). -/
def createDateResponse (agent_id date_str day_of_week : List Char) : AgentResponse :=
  { agent_id := agent_id, response_type := .date,
    data := [(cs "date", .str date_str), (cs "day_of_week", .str day_of_week)] }

/-- `AgentResponse.create_weather_response` (agent_response.py 153-164):
humidity is added only when the argument is truthy (present and nonempty). -/
def createWeatherResponse (agent_id temperature condition : List Char)
    (humidity : Option (List Char)) : AgentResponse :=
  { agent_id := agent_id, response_type := .weather,
    data := [(cs "temperature", .str temperature), (cs "condition", .str condition)]
      ++ (match humidity with
          | some h => if h.isEmpty then [] else [(cs "humidity", .str h)]
          | none => []) }

/-- `AgentResponse.create_error_response` (agent_response.py 183-190). -/
def createErrorAgentResponse (agent_id error_message : List Char) : AgentResponse :=
  { agent_id := agent_id, response_type := .error,
    data := [(cs "error_message", .str error_message)] }

/-! ## Agent response formatting — `IntegrationService._format_agent_response`

integration_service.py 292-318 branches on `agent_response.response_type.value`
compared against the UPPERCASE literals `"TIME"`, `"DATE"`, `"WEATHER"`,
`"COMBINED"`; a missing dict key inside a branch would raise `KeyError`,
embedded as `none`. -/

/-- Combined-branch helper: the source indexes `data[kind][field]` directly,
which raises unless the entry is a dict holding the field. -/
def nestedGet (data : AgentData) (kind fieldName : List Char) : Option (List Char) :=
  match dataGet data kind with
  | some (.dict entries) =>
      (match entries.find? (fun kv => decide (kv.1 = fieldName)) with
       | some kv => some kv.2
       | none => none)
  | _ => none

/-- `IntegrationService._format_agent_response` (integration_service.py
292-318), translated branch for branch including the uppercase comparison
literals; `none` models an uncaught `KeyError`/`TypeError` inside a branch. -/
def formatAgentResponse (r : AgentResponse) : Option (List Char) :=
  if r.response_type.value = cs "TIME" then
    match dataGet r.data (cs "time"), dataGet r.data (cs "timezone") with
    | some (.str t), some (.str tz) =>
        some (cs "Current time in " ++ r.location ++ cs ": " ++ t ++
              cs " (" ++ tz ++ cs ")")
    | _, _ => none
  else if r.response_type.value = cs "DATE" then
    match dataGet r.data (cs "date"), dataGet r.data (cs "day_of_week") with
    | some (.str d), some (.str dow) =>
        some (cs "Current date in " ++ r.location ++ cs ": " ++ d ++
              cs " (" ++ dow ++ cs ")")
    | _, _ => none
  else if r.response_type.value = cs "WEATHER" then
    match dataGet r.data (cs "condition"), dataGet r.data (cs "temperature") with
    | some (.str c), some (.str t) =>
        let weather_info := cs "Weather in " ++ r.location ++ cs ": " ++ c ++
          cs ", " ++ t
        some (match dataGet r.data (cs "humidity") with
              | some (.str h) =>
                  if h.isEmpty then weather_info
                  else weather_info ++ cs ", Humidity: " ++ h
              | _ => weather_info)
    | _, _ => none
  else if r.response_type.value = cs "COMBINED" then
    let timePart :=
      if truthy (dataGet r.data (cs "time")) then
        match nestedGet r.data (cs "time") (cs "time"),
              nestedGet r.data (cs "time") (cs "timezone") with
        | some t, some tz =>
            some [cs "Time: " ++ t ++ cs " (" ++ tz ++ cs ")"]
        | _, _ => none
      else some []
    let datePart :=
      if truthy (dataGet r.data (cs "date")) then
        match nestedGet r.data (cs "date") (cs "date"),
              nestedGet r.data (cs "date") (cs "day_of_week") with
        | some d, some dow =>
            some [cs "Date: " ++ d ++ cs " (" ++ dow ++ cs ")"]
        | _, _ => none
      else some []
    let weatherPart :=
      if truthy (dataGet r.data (cs "weather")) then
        match nestedGet r.data (cs "weather") (cs "condition"),
              nestedGet r.data (cs "weather") (cs "temperature") with
        | some c, some t =>
            let ws := cs "Weather: " ++ c ++ cs ", " ++ t
            some [match nestedGet r.data (cs "weather") (cs "humidity") with
                  | some h => if h.isEmpty then ws else ws ++ cs ", Humidity: " ++ h
                  | none => ws]
        | _, _ => none
    else some []
    match timePart, datePart, weatherPart with
    | some ps1, some ps2, some ps3 =>
        some (cs "Birmingham, Alabama Information:" ++ [Char.ofNat 10] ++
              List.intercalate [Char.ofNat 10] (ps1 ++ ps2 ++ ps3))
    | _, _, _ => none
  else
    some (pyStrOfData r.data)

/-! ## Streaming fragments

The response-builder helpers of integration_service.py (320-354) and
`IntegrationErrorHandler.create_error_response`
(integration_error_handling.py 126-149).  The wall-clock `timestamp` field
and the raw-data `metadata` payload are omitted: no claim reads them. -/

/-- One streamed fragment: its `type` tag, display `content`, the
`error_type` tag carried by error fragments, and the `streaming` flag. -/
structure Fragment where
  type : List Char
  content : List Char
  error_type : Option (List Char) := none
  streaming : Bool := false
deriving DecidableEq, Repr

/-- `IntegrationErrorHandler.create_error_response`
(integration_error_handling.py 126-149). -/
def createErrorResponse (message error_type : List Char) : Fragment :=
  { type := cs "error", content := message, error_type := some error_type }

/-- `IntegrationService._create_status_response` (integration_service.py
329-335). -/
def createStatusResponse (message : List Char) : Fragment :=
  { type := cs "status", content := message }

/-- `IntegrationService._create_streaming_response` (integration_service.py
320-327). -/
def createStreamingResponse (content : List Char) : Fragment :=
  { type := cs "response", content := content, streaming := true }

/-- `IntegrationService._create_agent_response` (integration_service.py
345-354). -/
def createAgentResponseFragment (content : List Char) : Fragment :=
  { type := cs "agent_response", content := content }

/-! ## Message and Session — `backend/models/message.py`, `session.py` -/

/-- `Message` (message.py 13-23): `message_id` and the wall-clock timestamp
are generated identities never branched on, so they are omitted; `metadata`
keeps only string-valued entries (the ones the orchestrator writes). -/
structure Message where
  session_id : List Char
  content : List Char
  message_type : MessageType
  metadata : List (List Char × List Char) := []
deriving DecidableEq, Repr

/-- `Session` (session.py 14-25); timestamps are seconds. -/
structure Session where
  session_id : List Char
  user_id : List Char
  created_at : Nat
  last_activity : Nat
  knowledge_base_id : Option (List Char) := none
  conversation_history : List Message := []
  status : SessionStatus := .active
deriving DecidableEq, Repr

/-- `Session.is_expired` (session.py 46-49): strictly more than
`timeout_hours` hours since `last_activity`. -/
def Session.isExpired (s : Session) (now timeout_hours : Nat) : Bool :=
  decide (now - s.last_activity > timeout_hours * 3600)

/-! ## Agent turn — `_handle_agent_command` and `AgentService.invoke_agent` -/

/-- The dispatch target chosen by `AgentService.invoke_agent`
(agent_service.py 221-269) for a command string. -/
inductive AgentBranch
  | time
  | date
  | weather
  | all
  | unknownCommand
deriving DecidableEq, Repr

/-- The `if command in [...]` dispatch of `AgentService.invoke_agent`
(agent_service.py 231-269): the command is lowercased and stripped, then
matched against the three-literal list of each branch; anything else yields
the unknown-command error response. -/
def invokeAgentDispatch (command : List Char) : AgentBranch :=
  let c := pyStrip (pyLower command)
  if c = cs "time" ∨ c = cs "current_time" ∨ c = cs "get_time" then .time
  else if c = cs "date" ∨ c = cs "current_date" ∨ c = cs "get_date" then .date
  else if c = cs "weather" ∨ c = cs "current_weather" ∨ c = cs "get_weather" then .weather
  else if c = cs "all" ∨ c = cs "all_info" ∨ c = cs "everything" then .all
  else .unknownCommand

/-- Result of one agent turn: the fragments yielded after the initial status
fragment of `process_user_command`, and the message persisted for the turn
(if any). -/
structure AgentTurn where
  fragments : List Fragment
  persisted : Option Message
deriving DecidableEq, Repr

/-- `IntegrationService._handle_agent_command` (integration_service.py
151-199) given the structured `AgentResponse` the tool agent returned:
yield the contact status fragment; on success format the response, persist
an agent-typed message with the formatted text plus agent metadata, and
yield one `agent_response` fragment with that text; on failure yield an
error fragment tagged `agent_error`.  `none` models a `KeyError` escaping
`_format_agent_response`. -/
def handleAgentCommand (sess : Session) (agent_response : AgentResponse) :
    Option AgentTurn :=
  let statusFrag := createStatusResponse (cs "Contacting Birmingham agent...")
  if agent_response.isSuccessful then
    match formatAgentResponse agent_response with
    | none => none
    | some formatted_response =>
        let agent_msg : Message :=
          { session_id := sess.session_id, content := formatted_response,
            message_type := .agent,
            metadata := [(cs "agent_id", agent_response.agent_id),
                         (cs "response_type", agent_response.response_type.value),
                         (cs "location", agent_response.location)] }
        some { fragments := [statusFrag, createAgentResponseFragment formatted_response],
               persisted := some agent_msg }
  else
    let detail :=
      match dataGet agent_response.data (cs "error_message") with
      | some (.str m) => m
      | _ => cs "Unknown error"
    some { fragments := [statusFrag,
             createErrorResponse (cs "Agent error: " ++ detail) (cs "agent_error")],
           persisted := none }

/-! ## Circuit breaker — `integration_error_handling.py` 210-291

State and transitions of `CircuitBreaker`; `now` is the wall clock in
seconds, so `(now - last_failure_time).total_seconds() > recovery_timeout`
becomes truncated `Nat` subtraction, which agrees with the source whenever
`now` is at or after the recorded failure (and both sides reject when it
is before, since neither a negative number nor `0` exceeds the
non-negative timeout). -/

/-- The `self.state` string: `"CLOSED"`, `"OPEN"` or `"HALF_OPEN"`. -/
inductive BreakerState
  | closed
  | opened
  | halfOpen
deriving DecidableEq, Repr

/-- `CircuitBreaker.__init__` fields (integration_error_handling.py 215-220). -/
structure CircuitBreaker where
  failure_threshold : Nat
  recovery_timeout : Nat
  failure_count : Nat := 0
  last_failure_time : Option Nat := none
  state : BreakerState := .closed
deriving DecidableEq, Repr

/-- `CircuitBreaker._should_attempt_reset` (integration_error_handling.py
240-246): no recorded failure, or strictly more than `recovery_timeout`
seconds elapsed. -/
def CircuitBreaker.shouldAttemptReset (cb : CircuitBreaker) (now : Nat) : Bool :=
  match cb.last_failure_time with
  | none => true
  | some t => decide (now - t > cb.recovery_timeout)

/-- `CircuitBreaker._on_success` (integration_error_handling.py 248-251). -/
def CircuitBreaker.onSuccess (cb : CircuitBreaker) : CircuitBreaker :=
  { cb with failure_count := 0, state := .closed }

/-- `CircuitBreaker._on_failure` (integration_error_handling.py 253-259). -/
def CircuitBreaker.onFailure (cb : CircuitBreaker) (now : Nat) : CircuitBreaker :=
  let fc := cb.failure_count + 1
  { cb with
    failure_count := fc
    last_failure_time := some now
    state := if fc ≥ cb.failure_threshold then .opened else cb.state }

/-- How one `CircuitBreaker.call` ended: rejected without invoking the
wrapped function, or invoked and the function succeeded / raised. -/
inductive CallOutcome
  | rejected
  | succeeded
  | failed
deriving DecidableEq, Repr

/-- State after one `CircuitBreaker.call`: the outcome, the breaker, and the
running count of invocations of the wrapped function. -/
structure CallStep where
  outcome : CallOutcome
  breaker : CircuitBreaker
  invocations : Nat
deriving DecidableEq, Repr

/-- `CircuitBreaker.call` (integration_error_handling.py 222-238) for one
call whose wrapped function would succeed (`funcSucceeds = true`) or raise:
while `OPEN`, either move to `HALF_OPEN` (reset window elapsed) or reject
without invoking; otherwise invoke, then `_on_success` / `_on_failure`
(the failure is re-raised to the caller). -/
def CircuitBreaker.call (cb : CircuitBreaker) (now : Nat) (funcSucceeds : Bool)
    (invocations : Nat) : CallStep :=
  let entry : Option CircuitBreaker :=
    if cb.state = .opened then
      if cb.shouldAttemptReset now then some { cb with state := .halfOpen }
      else none
    else some cb
  match entry with
  | none => { outcome := .rejected, breaker := cb, invocations := invocations }
  | some cb1 =>
      if funcSucceeds then
        { outcome := .succeeded, breaker := cb1.onSuccess,
          invocations := invocations + 1 }
      else
        { outcome := .failed, breaker := cb1.onFailure now,
          invocations := invocations + 1 }

/-- `with_circuit_breaker` (integration_error_handling.py 268-291) around one
call: a rejection ("Circuit breaker is OPEN") is converted into an error
fragment tagged `circuit_breaker_open` naming the wrapped service; any other
exception is re-raised (`none` here), and a success passes through. -/
def withCircuitBreaker (service_name : List Char) (cb : CircuitBreaker)
    (now : Nat) (funcSucceeds : Bool) (invocations : Nat) :
    Option Fragment × CallStep :=
  let step := cb.call now funcSucceeds invocations
  match step.outcome with
  | .rejected =>
      (some (createErrorResponse
        (service_name ++ cs " is temporarily unavailable. Please try again later.")
        (cs "circuit_breaker_open")), step)
  | _ => (none, step)

/-! ## Session Store Facade — `backend/services/session_service.py`

Two complementary views of the same source functions:

* a *stateful* view (`getSessionP`, `addMessageToSessionP`) over a reliable
  raw store — the DynamoDB table as a map from `session_id` to the stored
  record — capturing the data flow of `get_session` /
  `add_message_to_session` (expiry write-back, ownership check, append,
  trim);
* an *exception-flow* view (`…B` functions) over a `Backend` whose
  operations may raise, capturing which facade operations catch
  storage-backend errors and what they return when one occurs. -/

/-- The raw DynamoDB table: `session_id` → stored record. -/
def Store := List Char → Option Session

/-- `_store_session` against a reliable backend: `put_item` keyed by the
record's own `session_id`. -/
def storePut (st : Store) (s : Session) : Store :=
  fun k => if k = s.session_id then some s else st k

/-- `SessionService.get_session` (session_service.py 90-126) over a reliable
store: read the record, reject a missing session or foreign owner with
`none`; a session whose inactivity exceeds the timeout is written back with
`status = EXPIRED` and `none` is returned; otherwise the session is
returned and the store untouched. -/
def getSessionP (timeout_hours now : Nat) (st : Store)
    (session_id user_id : List Char) : Option Session × Store :=
  match st session_id with
  | none => (none, st)
  | some session =>
      if session.user_id ≠ user_id then (none, st)
      else if session.isExpired now timeout_hours then
        (none, storePut st { session with status := .expired })
      else (some session, st)

/-- Python `lst[-n:]`: the last `n` elements — except that `lst[-0:]` is the
whole list (`-0 == 0`, so the slice starts at the front). -/
def pyTailSlice {α : Type} (l : List α) (n : Nat) : List α :=
  if n = 0 then l else l.drop (l.length - n)

/-- `SessionService.add_message_to_session` (session_service.py 146-180)
over a reliable store: load via `get_session` (`False` if that yields
nothing), overwrite the message's `session_id`, append through
`Session.add_message` (which bumps `last_activity` and raises — caught as
`False` — on a session-id mismatch), trim to the last
`max_conversation_history` entries when the cap is exceeded, and persist. -/
def addMessageToSessionP (timeout_hours max_conversation_history now : Nat)
    (st : Store) (session_id user_id : List Char) (message : Message) :
    Bool × Store :=
  match getSessionP timeout_hours now st session_id user_id with
  | (none, st1) => (false, st1)
  | (some session, st1) =>
      let message := { message with session_id := session_id }
      if message.session_id ≠ session.session_id then (false, st1)
      else
        let session := { session with
          conversation_history := session.conversation_history ++ [message]
          last_activity := now }
        let session :=
          if session.conversation_history.length > max_conversation_history then
            { session with conversation_history :=
                pyTailSlice session.conversation_history max_conversation_history }
          else session
        (true, storePut st1 session)

/-- A storage-backend failure: `botocore` `ClientError` / `BotoCoreError`. -/
inductive StorageErr
  | clientError
  | botoCoreError
deriving DecidableEq, Repr

/-- The `fastapi.HTTPException` that `create_session` raises on failure. -/
structure HttpError where
  status_code : Nat
  detail : List Char
deriving DecidableEq, Repr

/-- Outcomes of the DynamoDB operations during one facade call:
`put_item` (via `_store_session`), `get_item`, `scan`. -/
structure Backend where
  putResult : Except StorageErr Unit
  getResult : Except StorageErr (Option Session)
  scanResult : Except StorageErr (List Session)

/-- `SessionService._store_session` (session_service.py 300-317): re-raises
the backend error. -/
def storeSessionB (b : Backend) : Except StorageErr Unit := b.putResult

/-- `SessionService._get_session_from_db` (session_service.py 319-330):
catches the backend error itself and returns `None`. -/
def getSessionFromDbB (b : Backend) : Option Session :=
  match b.getResult with
  | .ok v => v
  | .error _ => none

/-- `SessionService.create_session` (session_service.py 55-88): on any
failure it RAISES `HTTPException(500, "Failed to create session")` — per its
own docstring — instead of returning a failure value. -/
def createSessionB (b : Backend) (session : Session) :
    Except HttpError Session :=
  match storeSessionB b with
  | .ok _ => .ok session
  | .error _ => .error { status_code := 500, detail := cs "Failed to create session" }

/-- `SessionService.get_session` in the exception-flow view: the read error
is already swallowed by `_get_session_from_db`; an expiry write-back that
raises is caught by the outer handler, which also returns `None`. -/
def getSessionB (b : Backend) (timeout_hours now : Nat) (user_id : List Char) :
    Option Session :=
  match getSessionFromDbB b with
  | none => none
  | some session =>
      if session.user_id ≠ user_id then none
      else if session.isExpired now timeout_hours then none
      else some session

/-- `SessionService.update_session` (session_service.py 128-144): `False`
when the backing write raises. -/
def updateSessionB (b : Backend) : Bool :=
  match storeSessionB b with
  | .ok _ => true
  | .error _ => false

/-- `SessionService.add_message_to_session` in the exception-flow view:
`False` when the session cannot be loaded, and the final
`update_session` already maps a write error to `False`. -/
def addMessageToSessionB (b : Backend) (timeout_hours now : Nat)
    (user_id : List Char) : Bool :=
  match getSessionB b timeout_hours now user_id with
  | none => false
  | some _ => updateSessionB b

/-- `SessionService.list_user_sessions` (session_service.py 205-241): a scan
error is caught inside `_get_user_sessions_from_db` (empty list); an expiry
write-back that raises is caught by the outer handler (empty list);
otherwise expired sessions are marked, `active_only` filters, and the rest
are sorted by `last_activity` descending (Python's stable sort). -/
def listUserSessionsB (b : Backend) (timeout_hours now : Nat)
    (active_only : Bool) : List Session :=
  match b.scanResult with
  | .error _ => []
  | .ok items =>
      if items.any (fun s => s.isExpired now timeout_hours)
          ∧ (storeSessionB b).isOk = false then []
      else
        let marked := items.map (fun s =>
          if s.isExpired now timeout_hours then { s with status := .expired } else s)
        let kept := marked.filter (fun s =>
          !active_only || decide (s.status = .active))
        kept.mergeSort (fun s1 s2 => decide (s1.last_activity ≥ s2.last_activity))

/-- `SessionService.delete_session` (session_service.py 243-264), the
facade's archive operation: `False` when the session cannot be loaded or
the archival write raises. -/
def deleteSessionB (b : Backend) (timeout_hours now : Nat)
    (user_id : List Char) : Bool :=
  match getSessionB b timeout_hours now user_id with
  | none => false
  | some _ => updateSessionB b

/-! ## Orchestrator entry — `IntegrationService.process_user_command`

integration_service.py 56-106.  The downstream collaborators are supplied
as an environment: the outcome of `_get_or_create_session`, the boolean
`add_message_to_session` returns for the inbound user message, and the
fragments each dispatch path would yield. -/

/-- Environment of one `process_user_command` invocation. -/
structure OrchestratorEnv where
  getOrCreateResult : Option Session
  appendInboundResult : Bool
  agentFragments : List Fragment
  knowledgeBaseFragments : List Fragment
  generalAiFragments : List Fragment

/-- `IntegrationService.process_user_command` (integration_service.py
56-106): a failed get-or-create yields a single terminal error fragment;
otherwise the inbound user message is appended — the boolean result of
`session_service.add_message_to_session` at line 90 is not consulted — a
`status` fragment is yielded, the message is classified, and the matching
handler's fragments follow. -/
def processUserCommand (env : OrchestratorEnv) (user_message : List Char) :
    List Fragment :=
  match env.getOrCreateResult with
  | none => [createErrorResponse (cs "Failed to create or retrieve session")
               (cs "general_error")]
  | some _ =>
      createStatusResponse (cs "Processing your request...") ::
      (match classifyCommand user_message with
       | .agent => env.agentFragments
       | .knowledgeBase => env.knowledgeBaseFragments
       | .generalAi => env.generalAiFragments)

/-! ## Supporting lemmas -/

/-- Every routing vocabulary element is nonempty and whitespace-free, so
containment is unaffected by `strip`. -/
theorem agentCommandsList_wf :
    ∀ c ∈ agentCommandsList, c ≠ [] ∧ ∀ ch ∈ c, pyIsSpace ch = false := by
  decide

/-- The knowledge-base indicators are nonempty and whitespace-free. -/
theorem knowledgeBaseIndicators_wf :
    ∀ c ∈ knowledgeBaseIndicators, c ≠ [] ∧ ∀ ch ∈ c, pyIsSpace ch = false := by
  decide

/-- A vocabulary of nonempty whitespace-free terms matches the stripped text
iff some term occurs in the unstripped text. -/
theorem any_pyIn_pyStrip_iff (vocab : List (List Char))
    (hv : ∀ c ∈ vocab, c ≠ [] ∧ ∀ ch ∈ c, pyIsSpace ch = false) (l : List Char) :
    (vocab.any (fun c => pyIn c (pyStrip l))) = true ↔ ∃ c ∈ vocab, c <:+: l := by
  rw [List.any_eq_true]
  constructor
  · rintro ⟨c, hc, h⟩
    exact ⟨c, hc,
      (infix_pyStrip_iff (hv c hc).1 (hv c hc).2).mp (of_decide_eq_true h)⟩
  · rintro ⟨c, hc, h⟩
    exact ⟨c, hc,
      decide_eq_true ((infix_pyStrip_iff (hv c hc).1 (hv c hc).2).mpr h)⟩

/-! ## Claims about the classifier -/

/-- C4: `classify` is a total pure function of the text (a Lean function by
construction): any agent-vocabulary term occurring (case-insensitively) in
the text forces `agent`, even when a knowledge-base indicator is also
present; failing that, any knowledge-base indicator forces
`knowledge_base`; otherwise the result is `general_ai`. -/
theorem classify_trichotomy (msg : List Char) :
    ((∃ cmd ∈ agentCommandsList, cmd <:+: pyLower msg) →
        classifyCommand msg = .agent) ∧
    ((¬ ∃ cmd ∈ agentCommandsList, cmd <:+: pyLower msg) →
     (∃ ind ∈ knowledgeBaseIndicators, ind <:+: pyLower msg) →
        classifyCommand msg = .knowledgeBase) ∧
    ((¬ ∃ cmd ∈ agentCommandsList, cmd <:+: pyLower msg) →
     (¬ ∃ ind ∈ knowledgeBaseIndicators, ind <:+: pyLower msg) →
        classifyCommand msg = .generalAi) := by
  have hA := any_pyIn_pyStrip_iff agentCommandsList agentCommandsList_wf (pyLower msg)
  have hK := any_pyIn_pyStrip_iff knowledgeBaseIndicators knowledgeBaseIndicators_wf
    (pyLower msg)
  refine ⟨fun h => ?_, fun hna hk => ?_, fun hna hnk => ?_⟩
  · simp [classifyCommand, hA.mpr h]
  · have ha : (agentCommandsList.any
        (fun c => pyIn c (pyStrip (pyLower msg)))) = false :=
      Bool.eq_false_iff.mpr (fun hc => hna (hA.mp hc))
    simp [classifyCommand, ha, hK.mpr hk]
  · have ha : (agentCommandsList.any
        (fun c => pyIn c (pyStrip (pyLower msg)))) = false :=
      Bool.eq_false_iff.mpr (fun hc => hna (hA.mp hc))
    have hb : (knowledgeBaseIndicators.any
        (fun c => pyIn c (pyStrip (pyLower msg)))) = false :=
      Bool.eq_false_iff.mpr (fun hc => hnk (hK.mp hc))
    simp [classifyCommand, ha, hb]

/-- C4 witness: `"kb: what time is it"` contains the agent term `"time"`, so
the agent branch applies despite the `kb:` indicator. -/
theorem classify_trichotomy_witness :
    classifyCommand (cs "kb: what time is it") = .agent :=
  (classify_trichotomy (cs "kb: what time is it")).1 (by decide)

/-- C10: substring matching has no word boundaries: `"update my profile"`
contains `"date"` and `"really good idea"` contains `"all"`, so both are
routed to the tool agent. -/
theorem classify_substring_edge_cases :
    (cs "date") <:+: pyLower (cs "update my profile") ∧
    classifyCommand (cs "update my profile") = .agent ∧
    (cs "all") <:+: pyLower (cs "really good idea") ∧
    classifyCommand (cs "really good idea") = .agent := by
  decide

/-! ## Claim about agent-response formatting (C1) -/

/-- A fresh session used as the concrete working copy in scenario claims. -/
def freshSession : Session :=
  { session_id := cs "s1", user_id := cs "u1", created_at := 0, last_activity := 0 }

/-- The weather response of the spec's end-to-end scenario, as
`AgentService.get_weather` would build it. -/
def weatherExample : AgentResponse :=
  createWeatherResponse (cs "birmingham_agent") (cs "72°F") (cs "Partly Cloudy") none

/-- C1 (behavior at the failing input): on the `"weather"` turn the routing
does reach the weather branch, but `_format_agent_response` compares
`response_type.value` (`"weather"`, lowercase) against `"WEATHER"`, so every
formatting branch is dead and the emitted `agent_response` fragment and the
persisted agent message both carry `str(data)` — the Python dict repr — not
`"Weather in Birmingham, Alabama: Partly Cloudy, 72°F"`. -/
theorem weather_turn_emits_dict_repr :
    classifyCommand (cs "weather") = .agent ∧
    extractAgentCommand agentCommandsList (cs "weather") = cs "weather" ∧
    invokeAgentDispatch (cs "weather") = .weather ∧
    weatherExample.response_type.value = cs "weather" ∧
    weatherExample.response_type.value ≠ cs "WEATHER" ∧
    handleAgentCommand freshSession weatherExample =
      some { fragments :=
               [createStatusResponse (cs "Contacting Birmingham agent..."),
                createAgentResponseFragment (pyStrOfData weatherExample.data)]
             persisted := some
               { session_id := cs "s1"
                 content := pyStrOfData weatherExample.data
                 message_type := .agent
                 metadata := [(cs "agent_id", cs "birmingham_agent"),
                              (cs "response_type", cs "weather"),
                              (cs "location", cs "Birmingham, Alabama")] } } ∧
    pyStrOfData weatherExample.data ≠
      cs "Weather in Birmingham, Alabama: Partly Cloudy, 72°F" := by
  decide

/-! ## Claims about agent-command extraction (C9) -/

/-- Every agent-vocabulary term is routed by `invoke_agent` to a real
branch, never the unknown-command error. -/
theorem vocab_dispatch_known :
    ∀ c ∈ agentCommandsList, invokeAgentDispatch c ≠ .unknownCommand := by
  decide

/-- C9 counterexample: on the message `"everything"` the only vocabulary
term contained in the text is `"everything"` itself — so under every set
iteration order the extracted command is `"everything"`, which is none of
the normalized tokens `time`/`date`/`weather`/`all`. -/
theorem extract_everything_not_normalized :
    agentCommandsList.filter
        (fun c => pyIn c (pyStrip (pyLower (cs "everything")))) =
      [cs "everything"] ∧
    extractAgentCommand agentCommandsList (cs "everything") = cs "everything" ∧
    cs "everything" ≠ cs "time" ∧ cs "everything" ≠ cs "date" ∧
    cs "everything" ≠ cs "weather" ∧ cs "everything" ≠ cs "all" := by
  decide

/-- C9 amended: for any iteration order of the command set, the extracted
command is either the default `"all"` (no term contained) or some
agent-vocabulary term actually contained in the lowercased stripped message
— not necessarily a normalized token, and chosen by iteration order rather
than message position — and `invoke_agent` routes it to a real branch. -/
theorem extract_agent_command_spec (order : List (List Char))
    (horder : ∀ c ∈ order, c ∈ agentCommandsList) (msg : List Char) :
    (extractAgentCommand order msg = cs "all" ∧
       invokeAgentDispatch (extractAgentCommand order msg) = .all) ∨
    (extractAgentCommand order msg ∈ agentCommandsList ∧
       extractAgentCommand order msg <:+: pyStrip (pyLower msg) ∧
       invokeAgentDispatch (extractAgentCommand order msg) ≠ .unknownCommand) := by
  cases hf : order.find? (fun cmd => pyIn cmd (pyStrip (pyLower msg))) with
  | none =>
      have he : extractAgentCommand order msg = cs "all" := by
        simp [extractAgentCommand, hf]
      rw [he]
      exact Or.inl ⟨rfl, by decide⟩
  | some c =>
      have he : extractAgentCommand order msg = c := by
        simp [extractAgentCommand, hf]
      have hmem := horder c (List.mem_of_find?_eq_some hf)
      have hp := List.find?_some hf
      have hinf : c <:+: pyStrip (pyLower msg) :=
        of_decide_eq_true (by simpa [pyIn] using hp)
      rw [he]
      exact Or.inr ⟨hmem, hinf, vocab_dispatch_known c hmem⟩

/-- C9 witness: with the source-literal order and the message `"weather"`,
the extracted command is a vocabulary term contained in the text. -/
theorem extract_agent_command_spec_witness :
    (extractAgentCommand agentCommandsList (cs "weather") = cs "all" ∧
       invokeAgentDispatch (extractAgentCommand agentCommandsList (cs "weather")) = .all) ∨
    (extractAgentCommand agentCommandsList (cs "weather") ∈ agentCommandsList ∧
       extractAgentCommand agentCommandsList (cs "weather") <:+:
         pyStrip (pyLower (cs "weather")) ∧
       invokeAgentDispatch (extractAgentCommand agentCommandsList (cs "weather")) ≠
         .unknownCommand) :=
  extract_agent_command_spec agentCommandsList (fun _c hc => hc) (cs "weather")

/-! ## Claims about the circuit breaker (C2, C3) -/

/-- C2: the per-adapter breaker transition relation.  A call entered in a
non-open state invokes the function; success resets `failure_count` to 0 and
closes the breaker; any invoked call that fails increments `failure_count`,
stamps `last_failure_time := now`, and opens the breaker exactly when the
new count reaches `failure_threshold`; a call arriving while open with more
than `recovery_timeout` elapsed since the last failure moves the breaker to
half-open and lets the trial call through. -/
theorem circuit_breaker_transitions (cb : CircuitBreaker) (now invocations : Nat) :
    (cb.state ≠ .opened →
      (cb.call now true invocations =
        { outcome := .succeeded, breaker := cb.onSuccess,
          invocations := invocations + 1 } ∧
       (cb.call now true invocations).breaker.failure_count = 0 ∧
       (cb.call now true invocations).breaker.state = .closed)) ∧
    (∀ b, (cb.call now b invocations).outcome = .succeeded →
      (cb.call now b invocations).breaker.failure_count = 0 ∧
      (cb.call now b invocations).breaker.state = .closed) ∧
    (∀ b, (cb.call now b invocations).outcome = .failed →
      (cb.call now b invocations).breaker.failure_count = cb.failure_count + 1 ∧
      (cb.call now b invocations).breaker.last_failure_time = some now ∧
      (cb.failure_count + 1 ≥ cb.failure_threshold →
        (cb.call now b invocations).breaker.state = .opened)) ∧
    (∀ t, cb.state = .opened → cb.last_failure_time = some t →
      now - t > cb.recovery_timeout → ∀ b,
      (cb.call now b invocations).outcome ≠ .rejected ∧
      (cb.call now b invocations).invocations = invocations + 1 ∧
      (cb.call now b invocations).breaker =
        (if b then CircuitBreaker.onSuccess { cb with state := .halfOpen }
         else CircuitBreaker.onFailure { cb with state := .halfOpen } now)) := by
  refine ⟨fun h => ?_, fun b hb => ?_, fun b hb => ?_, fun t hs hl hw b => ?_⟩
  · have he : cb.call now true invocations =
        { outcome := .succeeded, breaker := cb.onSuccess,
          invocations := invocations + 1 } := by
      simp [CircuitBreaker.call, h]
    exact ⟨he, by rw [he]; simp [CircuitBreaker.onSuccess],
      by rw [he]; simp [CircuitBreaker.onSuccess]⟩
  · unfold CircuitBreaker.call at hb ⊢
    by_cases h : cb.state = .opened
    · by_cases hr : cb.shouldAttemptReset now
      · simp [h, hr] at hb ⊢
        cases b with
        | true => simp [CircuitBreaker.onSuccess]
        | false => simp at hb
      · simp [h, hr] at hb
    · cases b with
      | true => simp [h, CircuitBreaker.onSuccess]
      | false => simp [h] at hb
  · unfold CircuitBreaker.call at hb ⊢
    by_cases h : cb.state = .opened
    · by_cases hr : cb.shouldAttemptReset now
      · simp [h, hr] at hb ⊢
        cases b with
        | true => simp at hb
        | false => simp [CircuitBreaker.onFailure]
      · simp [h, hr] at hb
    · cases b with
      | true => simp [h] at hb
      | false => simp [h, CircuitBreaker.onFailure]
  · have hr : cb.shouldAttemptReset now = true := by
      simp [CircuitBreaker.shouldAttemptReset, hl, hw]
    cases b with
    | true => simp [CircuitBreaker.call, hs, hr]
    | false => simp [CircuitBreaker.call, hs, hr]

/-- C2 witness: a closed breaker (threshold 3, timeout 30) that has already
counted 2 failures: a success resets the count, while a third failure opens
it; an open breaker whose window has elapsed lets the trial through. -/
theorem circuit_breaker_transitions_witness :
    ((CircuitBreaker.mk 3 30 2 (some 0) .closed).call 100 true 7).breaker.failure_count = 0 ∧
    ((CircuitBreaker.mk 3 30 2 (some 0) .closed).call 100 false 7).breaker.state = .opened ∧
    ((CircuitBreaker.mk 3 30 3 (some 0) .opened).call 100 true 7).outcome ≠ .rejected := by
  have h1 := circuit_breaker_transitions (CircuitBreaker.mk 3 30 2 (some 0) .closed) 100 7
  have h2 := circuit_breaker_transitions (CircuitBreaker.mk 3 30 3 (some 0) .opened) 100 7
  refine ⟨(h1.1 (by decide)).2.1, ?_, (h2.2.2.2 0 rfl rfl (by decide) true).1⟩
  exact (h1.2.2.1 false (by decide)).2.2 (by decide)

/-- C3: a call arriving while the breaker is open, less than
`recovery_timeout` after the recorded failure, is rejected without invoking
the wrapped function — the breaker and the invocation counter are unchanged
— and `with_circuit_breaker` surfaces it as an error fragment tagged
`circuit_breaker_open`. -/
theorem open_breaker_short_circuits (service_name : List Char)
    (cb : CircuitBreaker) (now t invocations : Nat) (b : Bool)
    (hstate : cb.state = .opened) (hlft : cb.last_failure_time = some t)
    (hwin : now - t < cb.recovery_timeout) :
    withCircuitBreaker service_name cb now b invocations =
      (some (createErrorResponse
         (service_name ++ cs " is temporarily unavailable. Please try again later.")
         (cs "circuit_breaker_open")),
       { outcome := .rejected, breaker := cb, invocations := invocations }) := by
  have hr : cb.shouldAttemptReset now = false := by
    simp [CircuitBreaker.shouldAttemptReset, hlft]
    omega
  have hc : cb.call now b invocations =
      { outcome := .rejected, breaker := cb, invocations := invocations } := by
    simp [CircuitBreaker.call, hstate, hr]
  simp [withCircuitBreaker, hc]

/-- C3 witness: a breaker opened at time 0 with a 30-second window, called
at time 10. -/
theorem open_breaker_short_circuits_witness :
    withCircuitBreaker (cs "Agent_service") (CircuitBreaker.mk 5 30 5 (some 0) .opened)
        10 true 4 =
      (some (createErrorResponse
         (cs "Agent_service" ++ cs " is temporarily unavailable. Please try again later.")
         (cs "circuit_breaker_open")),
       { outcome := .rejected, breaker := CircuitBreaker.mk 5 30 5 (some 0) .opened,
         invocations := 4 }) :=
  open_breaker_short_circuits (cs "Agent_service")
    (CircuitBreaker.mk 5 30 5 (some 0) .opened) 10 0 4 true rfl rfl (by decide)

/-! ## Claim about the orchestrator's inbound-append step (C5) -/

/-- Concrete environment: session resolution succeeds, the inbound append
reports failure, and the agent path would yield one fragment. -/
def envAppendFails : OrchestratorEnv :=
  { getOrCreateResult := some freshSession
    appendInboundResult := false
    agentFragments := [createAgentResponseFragment (cs "agent output")]
    knowledgeBaseFragments := []
    generalAiFragments := [] }

/-- C5 counterexample: with the inbound append reporting failure, the
orchestrator still emits the status fragment and the dispatched agent
fragment — no terminal error fragment, and classification and dispatch do
happen. -/
theorem append_failure_does_not_stop :
    envAppendFails.appendInboundResult = false ∧
    processUserCommand envAppendFails (cs "weather") =
      [createStatusResponse (cs "Processing your request..."),
       createAgentResponseFragment (cs "agent output")] ∧
    (processUserCommand envAppendFails (cs "weather")).all
      (fun f => decide (f.type ≠ cs "error")) = true := by
  decide

/-- C5 amended: only a failed session get-or-create stops
`process_user_command` with a terminal error fragment; the boolean returned
by the inbound `add_message_to_session` is ignored, and processing (status
fragment, classification, dispatch) continues identically whatever it was. -/
theorem process_user_command_spec (env : OrchestratorEnv) (msg : List Char) :
    (env.getOrCreateResult = none →
      processUserCommand env msg =
        [createErrorResponse (cs "Failed to create or retrieve session")
           (cs "general_error")]) ∧
    (∀ s, env.getOrCreateResult = some s →
      processUserCommand env msg =
        createStatusResponse (cs "Processing your request...") ::
        (match classifyCommand msg with
         | .agent => env.agentFragments
         | .knowledgeBase => env.knowledgeBaseFragments
         | .generalAi => env.generalAiFragments)) ∧
    (∀ b, processUserCommand { env with appendInboundResult := b } msg =
            processUserCommand env msg) := by
  refine ⟨fun h => ?_, fun s h => ?_, fun b => ?_⟩
  · simp [processUserCommand, h]
  · simp [processUserCommand, h]
  · simp [processUserCommand]

/-- C5 witness: the amended statement applied to the concrete environment
with a failing append. -/
theorem process_user_command_spec_witness :
    processUserCommand envAppendFails (cs "weather") =
      createStatusResponse (cs "Processing your request...") ::
      (match classifyCommand (cs "weather") with
       | .agent => envAppendFails.agentFragments
       | .knowledgeBase => envAppendFails.knowledgeBaseFragments
       | .generalAi => envAppendFails.generalAiFragments) :=
  (process_user_command_spec envAppendFails (cs "weather")).2.1 freshSession rfl

/-! ## Claims about the Session Store Facade (C6, C7, C8) -/

/-- A backend whose every DynamoDB operation raises `ClientError`. -/
def failingBackend : Backend :=
  { putResult := .error .clientError
    getResult := .error .clientError
    scanResult := .error .clientError }

/-- C6 counterexample: when the backing write raises, `create_session` does
NOT return a failure value — it raises `HTTPException(500, "Failed to
create session")` past the facade layer, exactly as its docstring says. -/
theorem create_session_raises_on_storage_error :
    createSessionB failingBackend freshSession =
      .error { status_code := 500, detail := cs "Failed to create session" } := by
  rfl

/-- C6 amended: `get`, `update`, `append_message`, `list` and `archive`
map a storage-backend error to the failure value of their signature
(`none` / `false` / `[]`); `create` alone surfaces it as a raised
`HTTPException` with status 500. -/
theorem facade_storage_error_results (b : Backend) (timeout_hours now : Nat)
    (user_id : List Char) (s : Session) (active_only : Bool) (e : StorageErr) :
    (b.getResult = .error e →
       getSessionB b timeout_hours now user_id = none) ∧
    (b.putResult = .error e → updateSessionB b = false) ∧
    (b.getResult = .error e →
       addMessageToSessionB b timeout_hours now user_id = false) ∧
    (b.putResult = .error e →
       addMessageToSessionB b timeout_hours now user_id = false) ∧
    (b.scanResult = .error e →
       listUserSessionsB b timeout_hours now active_only = []) ∧
    (b.getResult = .error e →
       deleteSessionB b timeout_hours now user_id = false) ∧
    (b.putResult = .error e →
       deleteSessionB b timeout_hours now user_id = false) ∧
    (b.putResult = .error e →
       createSessionB b s =
         .error { status_code := 500, detail := cs "Failed to create session" }) := by
  refine ⟨fun h => ?_, fun h => ?_, fun h => ?_, fun h => ?_, fun h => ?_,
    fun h => ?_, fun h => ?_, fun h => ?_⟩
  · simp [getSessionB, getSessionFromDbB, h]
  · simp [updateSessionB, storeSessionB, h]
  · simp [addMessageToSessionB, getSessionB, getSessionFromDbB, h]
  · cases hg : getSessionB b timeout_hours now user_id with
    | none => simp [addMessageToSessionB, hg]
    | some s1 => simp [addMessageToSessionB, hg, updateSessionB, storeSessionB, h]
  · simp [listUserSessionsB, h]
  · simp [deleteSessionB, getSessionB, getSessionFromDbB, h]
  · cases hg : getSessionB b timeout_hours now user_id with
    | none => simp [deleteSessionB, hg]
    | some s1 => simp [deleteSessionB, hg, updateSessionB, storeSessionB, h]
  · simp [createSessionB, storeSessionB, h]

/-- C6 witness: the amended statement applied to the all-failing backend. -/
theorem facade_storage_error_results_witness :
    getSessionB failingBackend 24 1000 (cs "u1") = none ∧
    updateSessionB failingBackend = false ∧
    addMessageToSessionB failingBackend 24 1000 (cs "u1") = false ∧
    listUserSessionsB failingBackend 24 1000 true = [] ∧
    deleteSessionB failingBackend 24 1000 (cs "u1") = false ∧
    createSessionB failingBackend freshSession =
      .error { status_code := 500, detail := cs "Failed to create session" } := by
  have h := facade_storage_error_results failingBackend 24 1000 (cs "u1")
    freshSession true StorageErr.clientError
  exact ⟨h.1 rfl, h.2.1 rfl, h.2.2.1 rfl, h.2.2.2.2.1 rfl, h.2.2.2.2.2.1 rfl,
    h.2.2.2.2.2.2.2 rfl⟩

/-- C7: reading a session via `get` when more than `timeout_hours` hours of
inactivity have elapsed returns `none` and lazily writes the session back
with `status = EXPIRED`, so a raw store read afterwards sees the expired
status. -/
theorem expired_session_lazy_writeback (timeout_hours now : Nat) (st : Store)
    (session_id user_id : List Char) (s : Session)
    (hst : st session_id = some s) (hsid : s.session_id = session_id)
    (howner : s.user_id = user_id)
    (hexp : now - s.last_activity > timeout_hours * 3600) :
    (getSessionP timeout_hours now st session_id user_id).1 = none ∧
    (getSessionP timeout_hours now st session_id user_id).2 session_id =
      some { s with status := .expired } := by
  have he : s.isExpired now timeout_hours = true := by
    simp [Session.isExpired, hexp]
  constructor
  · simp [getSessionP, hst, howner, he]
  · simp [getSessionP, hst, howner, he, storePut, hsid]

/-- A stored session last active at time 0, used by the expiry witness. -/
def dormantStore : Store :=
  fun k => if k = cs "s1" then some freshSession else none

/-- C7 witness: with a 24-hour timeout, a read at 86401 seconds expires the
session. -/
theorem expired_session_lazy_writeback_witness :
    (getSessionP 24 86401 dormantStore (cs "s1") (cs "u1")).1 = none ∧
    (getSessionP 24 86401 dormantStore (cs "s1") (cs "u1")).2 (cs "s1") =
      some { freshSession with status := .expired } :=
  expired_session_lazy_writeback 24 86401 dormantStore (cs "s1") (cs "u1")
    freshSession (by simp [dormantStore]) rfl rfl (by decide)

/-- An inbound message for the trimming claims; the facade overwrites its
`session_id` anyway. -/
def inboundMessage : Message :=
  { session_id := cs "s1", content := cs "hello", message_type := .user }

/-- C8 counterexample: with the cap configured to 0 and a session holding
exactly 0 messages (the cap), the append leaves 1 message, not 0: Python's
`history[-0:]` slice is the whole list, so nothing is trimmed. -/
theorem append_at_cap_zero_overflows :
    freshSession.conversation_history.length = 0 ∧
    ((addMessageToSessionP 24 0 10 dormantStore (cs "s1") (cs "u1")
        inboundMessage).2 (cs "s1")).map
      (fun s => s.conversation_history.length) = some 1 := by
  decide

/-- C8 amended: for every positive cap, appending to a session already
holding exactly the cap keeps exactly the cap: the append succeeds, the
oldest message is evicted, the new message is appended at the end, and the
surviving messages keep their relative order (the stored history is
literally `old.drop 1 ++ [new]`). -/
theorem append_at_cap_evicts_oldest
    (timeout_hours cap now : Nat) (st : Store)
    (session_id user_id : List Char) (s : Session) (m : Message)
    (hst : st session_id = some s) (hsid : s.session_id = session_id)
    (howner : s.user_id = user_id)
    (hactive : now - s.last_activity ≤ timeout_hours * 3600)
    (hlen : s.conversation_history.length = cap) (hcap : 1 ≤ cap) :
    (addMessageToSessionP timeout_hours cap now st session_id user_id m).1 = true ∧
    (addMessageToSessionP timeout_hours cap now st session_id user_id m).2
        session_id =
      some { s with
             conversation_history :=
               s.conversation_history.drop 1 ++ [{ m with session_id := session_id }]
             last_activity := now } ∧
    (s.conversation_history.drop 1 ++
       [{ m with session_id := session_id }]).length = cap := by
  have hne : s.isExpired now timeout_hours = false := by
    simp [Session.isExpired]
    omega
  have hget : getSessionP timeout_hours now st session_id user_id = (some s, st) := by
    simp [getSessionP, hst, howner, hne]
  have hlen2 : (s.conversation_history ++
      [{ m with session_id := session_id }]).length = cap + 1 := by
    simp [hlen]
  have htrim : pyTailSlice
      (s.conversation_history ++ [{ m with session_id := session_id }]) cap =
      s.conversation_history.drop 1 ++ [{ m with session_id := session_id }] := by
    have hcap0 : cap ≠ 0 := by omega
    rw [pyTailSlice, if_neg hcap0, hlen2]
    have h1 : cap + 1 - cap = 1 := by omega
    rw [h1, List.drop_append_of_le_length (by omega)]
  have hfinal : addMessageToSessionP timeout_hours cap now st session_id user_id m =
      (true, storePut st { s with
        conversation_history :=
          s.conversation_history.drop 1 ++ [{ m with session_id := session_id }]
        last_activity := now }) := by
    rw [addMessageToSessionP, hget]
    simp [hsid, hlen2, Nat.lt_irrefl, htrim]
  refine ⟨by rw [hfinal], ?_, ?_⟩
  · rw [hfinal]
    simp [storePut, hsid]
  · simp [hlen]
    omega

/-- A session holding exactly two messages, for the cap-2 witness. -/
def fullSession : Session :=
  { session_id := cs "s2", user_id := cs "u1", created_at := 0, last_activity := 0,
    conversation_history :=
      [{ session_id := cs "s2", content := cs "m1", message_type := .user },
       { session_id := cs "s2", content := cs "m2", message_type := .assistant }] }

/-- The store holding `fullSession`, for the cap-2 witness. -/
def fullStore : Store :=
  fun k => if k = cs "s2" then some fullSession else none

/-- C8 witness: cap 2, two stored messages: the append keeps exactly two,
evicting the oldest. -/
theorem append_at_cap_evicts_oldest_witness :
    (addMessageToSessionP 24 2 10 fullStore (cs "s2") (cs "u1")
        inboundMessage).1 = true ∧
    (addMessageToSessionP 24 2 10 fullStore (cs "s2") (cs "u1")
        inboundMessage).2 (cs "s2") =
      some { fullSession with
             conversation_history :=
               fullSession.conversation_history.drop 1 ++
                 [{ inboundMessage with session_id := cs "s2" }]
             last_activity := 10 } ∧
    (fullSession.conversation_history.drop 1 ++
       [{ inboundMessage with session_id := cs "s2" }]).length = 2 :=
  append_at_cap_evicts_oldest 24 2 10 fullStore (cs "s2") (cs "u1") fullSession
    inboundMessage (by simp [fullStore]) rfl rfl (by decide) (by decide) (by decide)

end CLIve
